import Mathlib

/-!
# The-Book-Archive: Account Store & Derived-View Synchronization

Shallow embedding of `src/server.js`. The server keeps two flat record
sets (librarians, students) in JSON files, enforces uniqueness on insert,
and regenerates a rendered HTML listing per kind after every write.

Modelling conventions:
* JSON record sets become Lean lists (insertion order = list order).
* `bcrypt.hash` and `uuidv4()` are nondeterministic environment effects;
  the handlers take the produced `hash` / `freshId` as explicit arguments.
* `bcrypt.compare` is an abstract `verify : String → String → Bool`
  parameter of the login operations.
* `String.prototype.toLowerCase` is modelled by `lower` (per-character
  ASCII lowering, faithful on the ASCII range).
* A rejected promise inside an `async` Express handler aborts the rest of
  the handler: no response is sent.  Handlers therefore return an
  `Option` response (`none` = handler aborted before responding).
-/

namespace BookArchive

/-- A stored librarian record: `{ id, username, fullname, passwordHash }`
(`src/server.js` line 188). -/
structure Librarian where
  id : String
  username : String
  fullname : String
  passwordHash : String
deriving Repr, DecidableEq

/-- A stored student record: `{ id, name, grade, section, passHash }`
(`src/server.js` line 230). -/
structure Student where
  id : String
  name : String
  grade : String
  «section» : String
  passHash : String
deriving Repr, DecidableEq

/-- Model of `String.prototype.toLowerCase()` (ASCII range). -/
def lower (s : String) : String :=
  String.mk (s.data.map Char.toLower)

/-- `sanitizeUser(user, role)` for `role === 'librarian'`
(`src/server.js` line 45): the public profile, without the hash. -/
structure SanLibrarian where
  id : String
  username : String
  fullname : String
deriving Repr, DecidableEq

/-- `sanitizeUser(user, role)` for any other role (`src/server.js`
line 46): student-shaped public profile, without the hash. -/
structure SanStudent where
  id : String
  name : String
  grade : String
  «section» : String
deriving Repr, DecidableEq

/-- Sanitized API response body: `role: 'librarian'` or `role: 'student'`
is carried by the constructor. -/
inductive SanUser where
  | librarian (u : SanLibrarian)
  | student (u : SanStudent)
deriving Repr, DecidableEq

/-- The librarian branch of `sanitizeUser`. -/
def sanitizeLibrarian (u : Librarian) : SanUser :=
  .librarian ⟨u.id, u.username, u.fullname⟩

/-- The student branch of `sanitizeUser`. -/
def sanitizeStudent (u : Student) : SanUser :=
  .student ⟨u.id, u.name, u.grade, u.section⟩

/-- `res.status(409).json({ error: 'Username already exists' })` /
`'Student account already exists'`: the uniqueness-violation outcome. -/
inductive RegError where
  | duplicateKey
deriving Repr, DecidableEq

/-- `res.status(401).json({ error: 'Invalid credentials' })`: the single
login failure outcome (key miss and secret mismatch are indistinguishable). -/
inductive LoginError where
  | invalidCredentials
deriving Repr, DecidableEq

/-- `res.status(404).json({ error: 'Not found' })`: profile lookup miss. -/
inductive ProfileError where
  | notFound
deriving Repr, DecidableEq

/-! ## HTML generation (`src/server.js` lines 51–164)

`escapeHtml` is a chain of global single-character regex replaces; we
model each `String.replace(/c/g, r)` by `replaceChar c r` on character
lists.  (The `if (!s && s !== 0) return ''` guard is the identity on the
string inputs that occur here: the empty string escapes to itself.) -/

/-- One global single-character replace: `String.replace(/c/g, r)`. -/
def replaceChar (c : Char) (r : List Char) : List Char → List Char
  | [] => []
  | x :: xs => (if x = c then r else [x]) ++ replaceChar c r xs

/-- `escapeHtml` (`src/server.js` lines 51–58): replace `&` with `&amp;`,
then `<` with `&lt;`, then `>` with `&gt;`, then `"` with `&quot;`. -/
def escapeHtml (s : String) : String :=
  String.mk
    (replaceChar '"' "&quot;".data
      (replaceChar '>' "&gt;".data
        (replaceChar '<' "&lt;".data
          (replaceChar '&' "&amp;".data s.data))))

/-- The card rendered for one student (`src/server.js` lines 66–72):
heading is the escaped name, body shows escaped grade and section.
The credential hash is never referenced. -/
def studentCard (s : Student) : String :=
  "\n    <div class=\"card\">\n      <h3>" ++ escapeHtml s.name ++
  "</h3>\n      <p><strong>Grade:</strong> " ++ escapeHtml s.grade ++
  "</p>\n      <p><strong>Section:</strong> " ++ escapeHtml s.«section» ++
  "</p>\n    </div>\n  "

/-- The card rendered for one librarian (`src/server.js` lines 115–120):
heading is `fullname || username` (username when fullname is falsy),
body shows the escaped username.  The hash is never referenced. -/
def librarianCard (l : Librarian) : String :=
  "\n    <div class=\"card\">\n      <h3>" ++
  escapeHtml (if l.fullname.isEmpty then l.username else l.fullname) ++
  "</h3>\n      <p><strong>Username:</strong> " ++ escapeHtml l.username ++
  "</p>\n    </div>\n  "

/-- `students.map(s => ...)` — the artifact's entry list, one card per
record, in the record sequence's order. -/
def studentCards (students : List Student) : List String :=
  students.map studentCard

/-- `libs.map(l => ...)` — entry list of the librarians artifact. -/
def librarianCards (libs : List Librarian) : List String :=
  libs.map librarianCard

/-- The varying content of a rendered list page.  The surrounding HTML
wrapper (doctype, styles, portal links) is a constant template and is
omitted; `cardsHtml` is the interpolated `${cardsHtml || placeholder}`
container content and `generatedOn` the footer timestamp
(`new Date().toLocaleString()`, passed in as `now`). -/
structure ListPage where
  cardsHtml : String
  generatedOn : String
deriving Repr, DecidableEq

/-- `generateStudentsListPage` (`src/server.js` lines 64–108): join the
cards with newlines; an empty (falsy) join renders the placeholder. -/
def generateStudentsListPage (now : String) (students : List Student) : ListPage :=
  let cardsHtml := String.intercalate "\n" (studentCards students)
  { cardsHtml := if cardsHtml.isEmpty then "<p>No student accounts yet.</p>" else cardsHtml
    generatedOn := now }

/-- `generateLibrariansListPage` (`src/server.js` lines 113–156). -/
def generateLibrariansListPage (now : String) (libs : List Librarian) : ListPage :=
  let cardsHtml := String.intercalate "\n" (librarianCards libs)
  { cardsHtml := if cardsHtml.isEmpty then "<p>No librarian accounts yet.</p>" else cardsHtml
    generatedOn := now }

/-! ## Server state and routes (`src/server.js` lines 159–267) -/

/-- Process-wide mutable state: the two durable record files and the two
derived artifacts under `public/lists/`. -/
structure ServerState where
  libs : List Librarian
  studs : List Student
  studentsPage : ListPage
  librariansPage : ListPage
deriving Repr, DecidableEq

/-- `regenerateListFiles` (`src/server.js` lines 159–164): re-read the
full current record set of both kinds and rewrite both artifacts. -/
def regenerateListFiles (now : String) (st : ServerState) : ServerState :=
  { st with
    studentsPage := generateStudentsListPage now st.studs
    librariansPage := generateLibrariansListPage now st.libs }

/-- `POST /api/librarian/register` (`src/server.js` lines 171–196), after
field-shape validation.  `freshId` is the `uuidv4()` draw, `hash` the
bcrypt digest of the password, `now` the render timestamp.  `renderOk`
is whether `regenerateListFiles` succeeds: when it throws, the awaited
rejection aborts the handler after the durable `writeJson`, so no
response (`none`) is sent and the artifacts keep their prior content
(the model's stand-in for their unspecified stale state).
Returns the response sent (if any) and the state after the request. -/
def librarianRegisterH (renderOk : Bool) (now freshId hash username fullname : String)
    (st : ServerState) : Option (Except RegError Librarian) × ServerState :=
  if st.libs.any (fun l => lower l.username == lower username) then
    (some (.error .duplicateKey), st)
  else
    let user : Librarian := ⟨freshId, username, fullname, hash⟩
    let st1 := { st with libs := st.libs ++ [user] }
    if renderOk then (some (.ok user), regenerateListFiles now st1)
    else (none, st1)

/-- `POST /api/student/register` (`src/server.js` lines 214–238), after
field-shape validation; parameters as in `librarianRegisterH`. -/
def studentRegisterH (renderOk : Bool) (now freshId hash name grade sec : String)
    (st : ServerState) : Option (Except RegError Student) × ServerState :=
  if st.studs.any (fun s =>
      lower s.name == lower name && s.grade == grade && lower s.«section» == lower sec) then
    (some (.error .duplicateKey), st)
  else
    let user : Student := ⟨freshId, name, grade, sec, hash⟩
    let st1 := { st with studs := st.studs ++ [user] }
    if renderOk then (some (.ok user), regenerateListFiles now st1)
    else (none, st1)

/-- `POST /api/librarian/login` (`src/server.js` lines 199–211).
`verify` models `bcrypt.compare`. -/
def librarianLogin (verify : String → String → Bool) (username password : String)
    (libs : List Librarian) : Except LoginError Librarian :=
  match libs.find? (fun u => lower u.username == lower username) with
  | none => .error .invalidCredentials
  | some user =>
    if verify password user.passwordHash then .ok user
    else .error .invalidCredentials

/-- `POST /api/student/login` (`src/server.js` lines 241–256).  The
passcode field is optional in the request body; `if (passcode)` skips
verification when it is absent *or* falsy (the empty string). -/
def studentLogin (verify : String → String → Bool) (name grade sec : String)
    (passcode : Option String) (studs : List Student) : Except LoginError Student :=
  match studs.find? (fun s =>
      lower s.name == lower name && s.grade == grade && lower s.«section» == lower sec) with
  | none => .error .invalidCredentials
  | some user =>
    match passcode with
    | none => .ok user
    | some p =>
      if p.isEmpty then .ok user
      else if verify p user.passHash then .ok user
      else .error .invalidCredentials

/-- `GET /api/profile/:role/:id` (`src/server.js` lines 259–267):
`role === 'librarian'` selects the librarian file, every other role
string selects the student file; linear scan by exact `id`. -/
def profileLookup (role id : String) (libs : List Librarian) (studs : List Student) :
    Except ProfileError SanUser :=
  if role = "librarian" then
    match libs.find? (fun u => u.id == id) with
    | none => .error .notFound
    | some user => .ok (sanitizeLibrarian user)
  else
    match studs.find? (fun u => u.id == id) with
    | none => .error .notFound
    | some user => .ok (sanitizeStudent user)

/-! ## Sample data for concrete witnesses -/

/-- A concrete stored librarian. -/
def alice : Librarian := ⟨"lib-1", "alice", "Alice A", "HASH-A"⟩

/-- A concrete stored student. -/
def bob : Student := ⟨"stu-1", "bob", "7", "A", "HASH-B"⟩

/-- A blank rendered page. -/
def emptyPage : ListPage := ⟨"", ""⟩

/-- A concrete server state holding one librarian and one student. -/
def st0 : ServerState := ⟨[alice], [bob], emptyPage, emptyPage⟩

/-! ## Claims -/

/-- C1: a librarian registration whose username matches an existing
record case-insensitively fails with `DuplicateKey` and performs no
write — the state (in particular the stored librarian sequence and its
length) is unchanged. -/
theorem librarianRegister_duplicate_noWrite
    (renderOk : Bool) (now freshId hash username fullname : String) (st : ServerState)
    (hdup : ∃ l ∈ st.libs, lower l.username = lower username) :
    librarianRegisterH renderOk now freshId hash username fullname st
        = (some (.error .duplicateKey), st) ∧
    (librarianRegisterH renderOk now freshId hash username fullname st).2.libs.length
        = st.libs.length := by
  have hany : st.libs.any (fun l => lower l.username == lower username) = true := by
    rcases hdup with ⟨l, hl, he⟩
    exact List.any_eq_true.2 ⟨l, hl, by simp [he]⟩
  constructor <;> simp [librarianRegisterH, hany]

/-- Witness for C1: registering `ALICE` over stored `alice` is rejected
with the store untouched. -/
theorem librarianRegister_duplicate_noWrite_witness :
    librarianRegisterH true "t" "lib-2" "H2" "ALICE" "Alice B" st0
        = (some (.error .duplicateKey), st0) ∧
    (librarianRegisterH true "t" "lib-2" "H2" "ALICE" "Alice B" st0).2.libs.length
        = st0.libs.length :=
  librarianRegister_duplicate_noWrite true "t" "lib-2" "H2" "ALICE" "Alice B" st0
    ⟨alice, by decide, by decide⟩

/-- C2: the student uniqueness comparator is case-insensitive on `name`
and `section` but exact on `grade`: a candidate matching an existing
record up to case of `name`/`section` with byte-equal `grade` is
rejected with `DuplicateKey` and no write, while a candidate whose
`grade` differs (byte-wise) from every stored record's `grade` never
collides and is inserted. -/
theorem studentRegister_uniqueness
    (renderOk : Bool) (now freshId hash name grade sec : String) (st : ServerState) :
    ((∃ s ∈ st.studs, lower s.name = lower name ∧ s.grade = grade ∧
        lower s.«section» = lower sec) →
      studentRegisterH renderOk now freshId hash name grade sec st
        = (some (.error .duplicateKey), st)) ∧
    ((∀ s ∈ st.studs, s.grade ≠ grade) →
      studentRegisterH true now freshId hash name grade sec st
        = (some (.ok ⟨freshId, name, grade, sec, hash⟩),
           regenerateListFiles now
             { st with studs := st.studs ++ [⟨freshId, name, grade, sec, hash⟩] })) := by
  constructor
  · intro hdup
    have hany : st.studs.any (fun s =>
        lower s.name == lower name && s.grade == grade &&
        lower s.«section» == lower sec) = true := by
      rcases hdup with ⟨s, hs, h1, h2, h3⟩
      exact List.any_eq_true.2 ⟨s, hs, by simp [h1, h2, h3]⟩
    simp [studentRegisterH, hany]
  · intro hgrade
    have hany : st.studs.any (fun s =>
        lower s.name == lower name && s.grade == grade &&
        lower s.«section» == lower sec) = false := by
      rw [List.any_eq_false]
      intro s hs hcontra
      simp only [Bool.and_eq_true, beq_iff_eq] at hcontra
      exact hgrade s hs hcontra.1.2
    simp [studentRegisterH, hany]

/-- Witness for C2: over stored `("bob","7","A")`, registering
`("BOB","7","a")` collides, while `("bob","7a","A")` (a different grade,
all else equal) is inserted. -/
theorem studentRegister_uniqueness_witness :
    studentRegisterH true "t" "stu-2" "H2" "BOB" "7" "a" st0
        = (some (.error .duplicateKey), st0) ∧
    studentRegisterH true "t" "stu-2" "H2" "bob" "7a" "A" st0
        = (some (.ok ⟨"stu-2", "bob", "7a", "A", "H2"⟩),
           regenerateListFiles "t"
             { st0 with studs := st0.studs ++ [⟨"stu-2", "bob", "7a", "A", "H2"⟩] }) :=
  ⟨(studentRegister_uniqueness true "t" "stu-2" "H2" "BOB" "7" "a" st0).1
      ⟨bob, by decide, by decide, by decide, by decide⟩,
   (studentRegister_uniqueness true "t" "stu-2" "H2" "bob" "7a" "A" st0).2
      (by decide)⟩

/-- C3: librarian login finds the record by case-insensitive username;
with a correct secret it returns that record, with a wrong secret it
returns `InvalidCredentials`, and with a username matching no record it
returns the very same `InvalidCredentials` error (there is no `NotFound`
outcome), so the two failure causes are indistinguishable. -/
theorem librarianLogin_cases (verify : String → String → Bool)
    (username password : String) (libs : List Librarian) :
    (∀ u, libs.find? (fun l => lower l.username == lower username) = some u →
      (verify password u.passwordHash = true →
        librarianLogin verify username password libs = .ok u) ∧
      (verify password u.passwordHash = false →
        librarianLogin verify username password libs = .error .invalidCredentials)) ∧
    (libs.find? (fun l => lower l.username == lower username) = none →
      librarianLogin verify username password libs = .error .invalidCredentials) := by
  refine ⟨fun u hu => ⟨fun hv => ?_, fun hv => ?_⟩, fun hn => ?_⟩
  · simp [librarianLogin, hu, hv]
  · simp [librarianLogin, hu, hv]
  · simp [librarianLogin, hn]

/-- Witness for C3: a matching verifier accepts `alice`'s secret, a
mismatch and an unknown username both yield `InvalidCredentials`. -/
theorem librarianLogin_cases_witness :
    librarianLogin (fun p h => p == h) "ALICE" "HASH-A" st0.libs = .ok alice ∧
    librarianLogin (fun p h => p == h) "ALICE" "wrong" st0.libs
        = .error .invalidCredentials ∧
    librarianLogin (fun p h => p == h) "nobody" "HASH-A" st0.libs
        = .error .invalidCredentials :=
  ⟨((librarianLogin_cases (fun p h => p == h) "ALICE" "HASH-A" st0.libs).1 alice
      (by decide)).1 (by decide),
   ((librarianLogin_cases (fun p h => p == h) "ALICE" "wrong" st0.libs).1 alice
      (by decide)).2 (by decide),
   (librarianLogin_cases (fun p h => p == h) "nobody" "HASH-A" st0.libs).2 (by decide)⟩

/-- Counterexample to C4 as stated: with a failing regeneration
(`renderOk = false`), registering `carol` into `st0` durably commits the
record — the stored sequence now ends with it — yet the handler sends no
response at all (the success `res.json` on line 195 is after the awaited
`regenerateListFiles()` and is never reached), so the caller-facing
operation does not succeed. -/
theorem registerRenderFailure_counterexample :
    (librarianRegisterH false "t" "lib-9" "H9" "carol" "Carol C" st0).2.libs
        = st0.libs ++ [⟨"lib-9", "carol", "Carol C", "H9"⟩] ∧
    ¬ ∃ u, (librarianRegisterH false "t" "lib-9" "H9" "carol" "Carol C" st0).1
        = some (.ok u) := by
  have h1 : (librarianRegisterH false "t" "lib-9" "H9" "carol" "Carol C" st0).1
      = none := rfl
  exact ⟨by decide, fun ⟨u, hu⟩ => by simp [h1] at hu⟩

/-- C4 (amended): if view regeneration fails after a successful insert of
either kind, the inserted record has already been durably committed and
the store is neither rolled back nor corrupted — the post-request state
is exactly the prior state with the new record appended — but the
handler aborts without sending the success response (the artifact merely
becomes stale). -/
theorem register_renderFailure_committed
    (now idL hashL username fullname idS hashS name grade sec : String) (st : ServerState) :
    ((∀ l ∈ st.libs, lower l.username ≠ lower username) →
      (librarianRegisterH false now idL hashL username fullname st).1 = none ∧
      (librarianRegisterH false now idL hashL username fullname st).2
        = { st with libs := st.libs ++ [⟨idL, username, fullname, hashL⟩] }) ∧
    ((∀ s ∈ st.studs, ¬(lower s.name = lower name ∧ s.grade = grade ∧
        lower s.«section» = lower sec)) →
      (studentRegisterH false now idS hashS name grade sec st).1 = none ∧
      (studentRegisterH false now idS hashS name grade sec st).2
        = { st with studs := st.studs ++ [⟨idS, name, grade, sec, hashS⟩] }) := by
  constructor
  · intro hno
    have hany : st.libs.any (fun l => lower l.username == lower username) = false := by
      rw [List.any_eq_false]
      intro l hl
      simp only [beq_iff_eq]
      exact hno l hl
    constructor <;> simp [librarianRegisterH, hany]
  · intro hno
    have hany : st.studs.any (fun s =>
        lower s.name == lower name && s.grade == grade &&
        lower s.«section» == lower sec) = false := by
      rw [List.any_eq_false]
      intro s hs hcontra
      simp only [Bool.and_eq_true, beq_iff_eq] at hcontra
      exact hno s hs ⟨hcontra.1.1, hcontra.1.2, hcontra.2⟩
    constructor <;> simp [studentRegisterH, hany]

/-- Witness for amended C4: failed regeneration after inserting `carol`
(librarian) and `dave` (student) leaves each record committed with no
response sent. -/
theorem register_renderFailure_committed_witness :
    ((librarianRegisterH false "t" "lib-9" "H9" "carol" "Carol C" st0).1 = none ∧
      (librarianRegisterH false "t" "lib-9" "H9" "carol" "Carol C" st0).2
        = { st0 with libs := st0.libs ++ [⟨"lib-9", "carol", "Carol C", "H9"⟩] }) ∧
    ((studentRegisterH false "t" "stu-9" "H9" "dave" "8" "B" st0).1 = none ∧
      (studentRegisterH false "t" "stu-9" "H9" "dave" "8" "B" st0).2
        = { st0 with studs := st0.studs ++ [⟨"stu-9", "dave", "8", "B", "H9"⟩] }) :=
  ⟨(register_renderFailure_committed "t" "lib-9" "H9" "carol" "Carol C"
      "stu-9" "H9" "dave" "8" "B" st0).1 (by decide),
   (register_renderFailure_committed "t" "lib-9" "H9" "carol" "Carol C"
      "stu-9" "H9" "dave" "8" "B" st0).2 (by decide)⟩

/-- Counterexample to C5 as stated: a passcode IS supplied — the empty
string — and the verifier rejects it against the stored hash, yet the
login succeeds: `if (passcode)` treats the falsy empty string like a
missing passcode and skips verification entirely. -/
theorem studentLogin_emptyPasscode_counterexample :
    studentLogin (fun _ _ => false) "bob" "7" "A" (some "") st0.studs = .ok bob ∧
    (fun _ _ => false) "" bob.passHash = false :=
  ⟨rfl, rfl⟩

/-- C5 (amended): student login with a matching key and a missing — or
empty-string, which JS truthiness treats as missing — passcode returns
the record with no secret verification at all (the result is the same
for every verifier); a non-empty passcode is verified against the stored
hash, a mismatch yielding `InvalidCredentials` and a match the record. -/
theorem studentLogin_secret_policy (verify : String → String → Bool)
    (name grade sec p : String) (studs : List Student) (u : Student)
    (hu : studs.find? (fun s =>
        lower s.name == lower name && s.grade == grade &&
        lower s.«section» == lower sec) = some u) :
    studentLogin verify name grade sec none studs = .ok u ∧
    studentLogin verify name grade sec (some "") studs = .ok u ∧
    (¬p.isEmpty →
      (verify p u.passHash = false →
        studentLogin verify name grade sec (some p) studs
          = .error .invalidCredentials) ∧
      (verify p u.passHash = true →
        studentLogin verify name grade sec (some p) studs = .ok u)) := by
  refine ⟨?_, ?_, fun hp => ⟨fun hv => ?_, fun hv => ?_⟩⟩
  · simp [studentLogin, hu]
  · simp [studentLogin, hu]
    intro h
    exact absurd h (by decide)
  · have hp' : p.isEmpty = false := by simpa using hp
    simp [studentLogin, hu, hp', hv]
  · have hp' : p.isEmpty = false := by simpa using hp
    simp [studentLogin, hu, hp', hv]

/-- Witness for amended C5: for stored `bob`, a missing and an empty
passcode are both accepted under a rejecting verifier, and a non-empty
wrong passcode is rejected while the right one is accepted. -/
theorem studentLogin_secret_policy_witness :
    studentLogin (fun p h => p == h) "BOB" "7" "a" none st0.studs = .ok bob ∧
    studentLogin (fun p h => p == h) "BOB" "7" "a" (some "") st0.studs = .ok bob ∧
    studentLogin (fun p h => p == h) "BOB" "7" "a" (some "wrong") st0.studs
        = .error .invalidCredentials ∧
    studentLogin (fun p h => p == h) "BOB" "7" "a" (some "HASH-B") st0.studs
        = .ok bob := by
  have h := studentLogin_secret_policy (fun p h => p == h) "BOB" "7" "a"
    "wrong" st0.studs bob (by decide)
  have h2 := studentLogin_secret_policy (fun p h => p == h) "BOB" "7" "a"
    "HASH-B" st0.studs bob (by decide)
  exact ⟨h.1, h.2.1, (h.2.2 (by decide)).1 (by decide), (h2.2.2 (by decide)).2 (by decide)⟩

/-- C6: the rendered artifact's entry list has exactly one card per
record of the kind, at the same position as the record in the stored
sequence (insertion order), and each card is computed from the record's
public fields only — changing the credential hash field leaves the card
unchanged, so no entry exposes it.  Hence after N registrations the
artifact has exactly N entries in insertion order, none built from the
hash. -/
theorem artifact_entries (students : List Student) (libs : List Librarian) :
    (studentCards students).length = students.length ∧
    (∀ i : Nat, (studentCards students)[i]? = (students[i]?).map studentCard) ∧
    (∀ (s : Student) (h : String),
      studentCard { s with passHash := h } = studentCard s) ∧
    (librarianCards libs).length = libs.length ∧
    (∀ i : Nat, (librarianCards libs)[i]? = (libs[i]?).map librarianCard) ∧
    (∀ (l : Librarian) (h : String),
      librarianCard { l with passwordHash := h } = librarianCard l) :=
  ⟨by simp [studentCards], fun i => by simp [studentCards],
   fun s h => rfl,
   by simp [librarianCards], fun i => by simp [librarianCards],
   fun l h => rfl⟩

/-! ## Escaping: property vocabulary for C7

`entity c` is the chunk `escapeHtml` emits for one input character;
`ampsOk` checks that every `&` in a character list starts one of the
four entities emitted by the escaper, i.e. that no raw `&` survives. -/

/-- The chunk emitted by the replace chain for one input character. -/
def entity (c : Char) : List Char :=
  if c = '&' then "&amp;".data
  else if c = '<' then "&lt;".data
  else if c = '>' then "&gt;".data
  else if c = '"' then "&quot;".data
  else [c]

/-- Every `&` in the list starts one of the entities `&amp;` `&lt;`
`&gt;` `&quot;` (so it is an escape, not a raw ampersand). -/
def ampsOk : List Char → Bool
  | [] => true
  | c :: rest =>
    (if c = '&' then
      ("amp;".data.isPrefixOf rest || "lt;".data.isPrefixOf rest ||
       "gt;".data.isPrefixOf rest || "quot;".data.isPrefixOf rest)
     else true) && ampsOk rest

theorem replaceChar_append (c : Char) (r : List Char) (l₁ l₂ : List Char) :
    replaceChar c r (l₁ ++ l₂) = replaceChar c r l₁ ++ replaceChar c r l₂ := by
  induction l₁ with
  | nil => rfl
  | cons x xs ih => simp [replaceChar, ih]

theorem escapeHtml_data_cons (c : Char) (cs : List Char) :
    (escapeHtml (String.mk (c :: cs))).data
      = entity c ++ (escapeHtml (String.mk cs)).data := by
  by_cases h1 : c = '&'
  · subst h1; simp [escapeHtml, entity, replaceChar, replaceChar_append]
  · by_cases h2 : c = '<'
    · subst h2; simp [escapeHtml, entity, replaceChar, replaceChar_append]
    · by_cases h3 : c = '>'
      · subst h3; simp [escapeHtml, entity, replaceChar, replaceChar_append]
      · by_cases h4 : c = '"'
        · subst h4; simp [escapeHtml, entity, replaceChar, replaceChar_append]
        · simp [escapeHtml, entity, replaceChar, replaceChar_append, h1, h2, h3, h4]

theorem escapeHtml_data_flatMap (cs : List Char) :
    (escapeHtml (String.mk cs)).data = cs.flatMap entity := by
  induction cs with
  | nil => rfl
  | cons c cs ih => rw [escapeHtml_data_cons, ih]; rfl

theorem entity_no_special (c x : Char) (hx : x ∈ entity c) :
    x ≠ '<' ∧ x ≠ '>' ∧ x ≠ '"' := by
  by_cases h1 : c = '&'
  · subst h1; simp [entity] at hx; rcases hx with h | h | h | h | h <;> subst h <;> decide
  · by_cases h2 : c = '<'
    · subst h2; simp [entity] at hx
      rcases hx with h | h | h | h <;> subst h <;> decide
    · by_cases h3 : c = '>'
      · subst h3; simp [entity, h2] at hx
        rcases hx with h | h | h | h <;> subst h <;> decide
      · by_cases h4 : c = '"'
        · subst h4; simp [entity] at hx
          rcases hx with h | h | h | h | h | h <;> subst h <;> decide
        · simp [entity, h1, h2, h3, h4] at hx
          subst hx
          exact ⟨h2, h3, h4⟩

theorem ampsOk_entity_append (c : Char) (l : List Char) (hl : ampsOk l = true) :
    ampsOk (entity c ++ l) = true := by
  by_cases h1 : c = '&'
  · subst h1; simp [entity, ampsOk, List.isPrefixOf, hl]
  · by_cases h2 : c = '<'
    · subst h2; simp [entity, ampsOk, List.isPrefixOf, hl]
    · by_cases h3 : c = '>'
      · subst h3; simp [entity, h2, ampsOk, List.isPrefixOf, hl]
      · by_cases h4 : c = '"'
        · subst h4; simp [entity, ampsOk, List.isPrefixOf, hl]
        · simp [entity, h1, h2, h3, h4, ampsOk, hl]

/-- C7: escaping neutralizes every character that is structurally
significant where the value is embedded (text nodes and double-quoted
attribute values): for every input string the escaped output contains no
raw `<`, `>` or `"`, and every `&` in it starts one of the four escape
entities — so the embedded value cannot open or close markup. -/
theorem escapeHtml_neutralizes (s : String) :
    (∀ c ∈ (escapeHtml s).data, c ≠ '<' ∧ c ≠ '>' ∧ c ≠ '"') ∧
    ampsOk (escapeHtml s).data = true := by
  obtain ⟨cs⟩ := s
  rw [escapeHtml_data_flatMap]
  constructor
  · intro c hc
    rw [List.mem_flatMap] at hc
    rcases hc with ⟨x, _, hx⟩
    exact entity_no_special x c hx
  · induction cs with
    | nil => rfl
    | cons c cs ih => exact ampsOk_entity_append c _ ih

/-! ## Helper lemmas for the register pipeline -/

theorem find?_append_of_none {α : Type} (p : α → Bool) (l₁ l₂ : List α)
    (h : ∀ x ∈ l₁, p x = false) : (l₁ ++ l₂).find? p = l₂.find? p := by
  induction l₁ with
  | nil => rfl
  | cons x xs ih =>
    simp only [List.cons_append, List.find?]
    rw [h x (by simp)]
    exact ih fun y hy => h y (by simp [hy])

theorem libsAny_eq_false (username : String) (libs : List Librarian)
    (hno : ∀ l ∈ libs, lower l.username ≠ lower username) :
    libs.any (fun l => lower l.username == lower username) = false := by
  rw [List.any_eq_false]
  intro l hl
  simp only [beq_iff_eq]
  exact hno l hl

theorem studsAny_eq_false (name grade sec : String) (studs : List Student)
    (hno : ∀ s ∈ studs, ¬(lower s.name = lower name ∧ s.grade = grade ∧
        lower s.«section» = lower sec)) :
    studs.any (fun s => lower s.name == lower name && s.grade == grade &&
        lower s.«section» == lower sec) = false := by
  rw [List.any_eq_false]
  intro s hs hcontra
  simp only [Bool.and_eq_true, beq_iff_eq] at hcontra
  exact hno s hs ⟨hcontra.1.1, hcontra.1.2, hcontra.2⟩

/-- C8: round-trip for both kinds.  A successful registration (unique
key, fresh id) responds with the inserted record, and an immediately
following profile lookup by the returned id on the post-request state
returns exactly the sanitized public projection (id plus display fields,
no hash) of that same record. -/
theorem register_getById_roundtrip
    (now idL hashL username fullname idS hashS name grade sec : String)
    (st : ServerState) :
    ((∀ l ∈ st.libs, lower l.username ≠ lower username) →
     (∀ l ∈ st.libs, l.id ≠ idL) →
      (librarianRegisterH true now idL hashL username fullname st).1
        = some (.ok ⟨idL, username, fullname, hashL⟩) ∧
      profileLookup "librarian" idL
          (librarianRegisterH true now idL hashL username fullname st).2.libs
          (librarianRegisterH true now idL hashL username fullname st).2.studs
        = .ok (sanitizeLibrarian ⟨idL, username, fullname, hashL⟩)) ∧
    ((∀ s ∈ st.studs, ¬(lower s.name = lower name ∧ s.grade = grade ∧
        lower s.«section» = lower sec)) →
     (∀ s ∈ st.studs, s.id ≠ idS) →
      (studentRegisterH true now idS hashS name grade sec st).1
        = some (.ok ⟨idS, name, grade, sec, hashS⟩) ∧
      profileLookup "student" idS
          (studentRegisterH true now idS hashS name grade sec st).2.libs
          (studentRegisterH true now idS hashS name grade sec st).2.studs
        = .ok (sanitizeStudent ⟨idS, name, grade, sec, hashS⟩)) := by
  constructor
  · intro hno hfresh
    have hany := libsAny_eq_false username st.libs hno
    have hfind : (st.libs ++ [(⟨idL, username, fullname, hashL⟩ : Librarian)]).find?
        (fun x => x.id == idL) = some ⟨idL, username, fullname, hashL⟩ := by
      rw [find?_append_of_none _ _ _ fun x hx => by simp [hfresh x hx]]
      simp [List.find?]
    constructor
    · simp [librarianRegisterH, hany]
    · simp [librarianRegisterH, hany, regenerateListFiles, profileLookup, hfind]
  · intro hno hfresh
    have hany := studsAny_eq_false name grade sec st.studs hno
    have hfind : (st.studs ++ [(⟨idS, name, grade, sec, hashS⟩ : Student)]).find?
        (fun x => x.id == idS) = some ⟨idS, name, grade, sec, hashS⟩ := by
      rw [find?_append_of_none _ _ _ fun x hx => by simp [hfresh x hx]]
      simp [List.find?]
    constructor
    · simp [studentRegisterH, hany]
    · simp [studentRegisterH, hany, regenerateListFiles, profileLookup, hfind]

/-- Witness for C8: registering `carol` (librarian) and `dave` (student)
into `st0` and looking each returned id up yields the matching sanitized
profile. -/
theorem register_getById_roundtrip_witness :
    ((librarianRegisterH true "t" "lib-9" "H9" "carol" "Carol C" st0).1
        = some (.ok ⟨"lib-9", "carol", "Carol C", "H9"⟩) ∧
      profileLookup "librarian" "lib-9"
          (librarianRegisterH true "t" "lib-9" "H9" "carol" "Carol C" st0).2.libs
          (librarianRegisterH true "t" "lib-9" "H9" "carol" "Carol C" st0).2.studs
        = .ok (sanitizeLibrarian ⟨"lib-9", "carol", "Carol C", "H9"⟩)) ∧
    ((studentRegisterH true "t" "stu-9" "H9" "dave" "8" "B" st0).1
        = some (.ok ⟨"stu-9", "dave", "8", "B", "H9"⟩) ∧
      profileLookup "student" "stu-9"
          (studentRegisterH true "t" "stu-9" "H9" "dave" "8" "B" st0).2.libs
          (studentRegisterH true "t" "stu-9" "H9" "dave" "8" "B" st0).2.studs
        = .ok (sanitizeStudent ⟨"stu-9", "dave", "8", "B", "H9"⟩)) :=
  ⟨(register_getById_roundtrip "t" "lib-9" "H9" "carol" "Carol C"
      "stu-9" "H9" "dave" "8" "B" st0).1 (by decide) (by decide),
   (register_getById_roundtrip "t" "lib-9" "H9" "carol" "Carol C"
      "stu-9" "H9" "dave" "8" "B" st0).2 (by decide) (by decide)⟩

/-- C9: every successful registration of either kind regenerates BOTH
derived artifacts, each from the full current record set of its kind as
of the triggering insert: after a librarian insert the librarians page
reflects the appended sequence and the students page the (unchanged)
student sequence, and symmetrically for a student insert. -/
theorem register_regenerates_views
    (now idL hashL username fullname idS hashS name grade sec : String)
    (st : ServerState) :
    ((∀ l ∈ st.libs, lower l.username ≠ lower username) →
      (librarianRegisterH true now idL hashL username fullname st).2.studentsPage
        = generateStudentsListPage now st.studs ∧
      (librarianRegisterH true now idL hashL username fullname st).2.librariansPage
        = generateLibrariansListPage now
            (st.libs ++ [⟨idL, username, fullname, hashL⟩])) ∧
    ((∀ s ∈ st.studs, ¬(lower s.name = lower name ∧ s.grade = grade ∧
        lower s.«section» = lower sec)) →
      (studentRegisterH true now idS hashS name grade sec st).2.studentsPage
        = generateStudentsListPage now
            (st.studs ++ [⟨idS, name, grade, sec, hashS⟩]) ∧
      (studentRegisterH true now idS hashS name grade sec st).2.librariansPage
        = generateLibrariansListPage now st.libs) := by
  constructor
  · intro hno
    have hany := libsAny_eq_false username st.libs hno
    constructor <;> simp [librarianRegisterH, hany, regenerateListFiles]
  · intro hno
    have hany := studsAny_eq_false name grade sec st.studs hno
    constructor <;> simp [studentRegisterH, hany, regenerateListFiles]

/-- Witness for C9: inserting `carol` (librarian) then, separately,
`dave` (student) into `st0` refreshes both pages from the stated record
sets. -/
theorem register_regenerates_views_witness :
    ((librarianRegisterH true "t" "lib-9" "H9" "carol" "Carol C" st0).2.studentsPage
        = generateStudentsListPage "t" st0.studs ∧
      (librarianRegisterH true "t" "lib-9" "H9" "carol" "Carol C" st0).2.librariansPage
        = generateLibrariansListPage "t"
            (st0.libs ++ [⟨"lib-9", "carol", "Carol C", "H9"⟩])) ∧
    ((studentRegisterH true "t" "stu-9" "H9" "dave" "8" "B" st0).2.studentsPage
        = generateStudentsListPage "t"
            (st0.studs ++ [⟨"stu-9", "dave", "8", "B", "H9"⟩]) ∧
      (studentRegisterH true "t" "stu-9" "H9" "dave" "8" "B" st0).2.librariansPage
        = generateLibrariansListPage "t" st0.libs) :=
  ⟨(register_regenerates_views "t" "lib-9" "H9" "carol" "Carol C"
      "stu-9" "H9" "dave" "8" "B" st0).1 (by decide),
   (register_regenerates_views "t" "lib-9" "H9" "carol" "Carol C"
      "stu-9" "H9" "dave" "8" "B" st0).2 (by decide)⟩

/-- C10: the profile route never validates its role segment — for every
role string other than exactly `"librarian"` (`"admin"`, `"Librarian"`,
…) it searches the student record set, ignoring the librarian set
entirely; an id hit returns a student-shaped sanitized profile and an id
miss returns `NotFound`, with no unknown-role error outcome. -/
theorem profileLookup_no_role_validation (role id : String)
    (libs : List Librarian) (studs : List Student) (hrole : role ≠ "librarian") :
    profileLookup role id libs studs = profileLookup role id [] studs ∧
    (∀ u, studs.find? (fun s => s.id == id) = some u →
      profileLookup role id libs studs = .ok (sanitizeStudent u)) ∧
    (studs.find? (fun s => s.id == id) = none →
      profileLookup role id libs studs = .error .notFound) := by
  refine ⟨?_, fun u hu => ?_, fun hn => ?_⟩
  · simp [profileLookup, hrole]
  · simp [profileLookup, hrole, hu]
  · simp [profileLookup, hrole, hn]

/-- Witness for C10: with role `"admin"` the lookup returns the stored
student `bob` for his id — with the librarian set ignored — and
`NotFound` for an unknown id. -/
theorem profileLookup_no_role_validation_witness :
    profileLookup "admin" "stu-1" st0.libs st0.studs
        = profileLookup "admin" "stu-1" [] st0.studs ∧
    profileLookup "admin" "stu-1" st0.libs st0.studs = .ok (sanitizeStudent bob) ∧
    profileLookup "admin" "lib-1" st0.libs st0.studs = .error .notFound :=
  ⟨(profileLookup_no_role_validation "admin" "stu-1" st0.libs st0.studs
      (by decide)).1,
   (profileLookup_no_role_validation "admin" "stu-1" st0.libs st0.studs
      (by decide)).2.1 bob (by decide),
   (profileLookup_no_role_validation "admin" "lib-1" st0.libs st0.studs
      (by decide)).2.2 (by decide)⟩

end BookArchive
